import Mathlib

/-!
Verification of the OVH API Ironic driver (request signing transport,
remote server client and power-transition logic) against its
natural-language specification.  The definitions below are a shallow
embedding of the Python sources:

* `ironic/drivers/modules/ovhapi/power.py`    — `OvhApiPower`
* `ironic/drivers/modules/ovhapi/ovh_base.py` — `Api` (signed transport)
* `ironic/drivers/modules/ovhapi/client.py`   — `BaseClient`

Remote interaction (HTTP calls, sleeps) is modelled by explicit action
traces; the remote side's answers are supplied as oracle arguments.
-/

namespace Ovh

/-- Power states from `ironic.common.states` used by `power.py`. -/
inductive PowerState
  | POWER_ON
  | POWER_OFF
  | REBOOT
  | ERROR
deriving DecidableEq, Repr

/-- Primitive effects performed by the driver, in program order.
`set_boot_script`, `reboot_server`, `get_task` are the client calls made
by `OvhApiPower.set_power_state`; `sleep` is `time.sleep`; `list_servers`
and `get_server` are the other read-only client calls (listed so that the
absence of a boot-target capture is expressible). -/
inductive Action
  | set_boot_script (server script : String)
  | reboot_server (server : String)
  | sleep (secs : Nat)
  | get_task (server : String) (task_id : Int)
  | list_servers
  | get_server (server : String)
deriving DecidableEq, Repr

/-- Exceptions surfaced by the embedded code. -/
inductive Exc
  | http_error
  | invalid_parameter_value
  | missing_parameter_value
  | name_error
deriving DecidableEq, Repr

/-- How a run of `set_power_state` ends: the loop broke (`finished`), an
exception propagated (`raised`), or the supplied oracle of poll responses
ran out while every status was still in progress (`still_polling`, the
unbounded-loop case). -/
inductive Outcome
  | finished
  | raised (e : Exc)
  | still_polling
deriving DecidableEq, Repr

/-- Result of a run: the trace of remote/sleep actions, the successive
writes to `task.node.power_state`, and how the run ended. -/
structure RunResult where
  trace : List Action
  writes : List PowerState
  outcome : Outcome
deriving DecidableEq, Repr

/-- Driver configuration (`CONF.ovhapi`). -/
structure Conf where
  poweroff_script : String
  boot_script : String
deriving DecidableEq, Repr

/-- One poll response from the remote API: `none` models an HTTP error
(`raise_for_status` raises), `some (taskId, status)` a decoded body. -/
abbrev TaskResp := Option (Int × String)

/-- The `while True` poll loop of `OvhApiPower.set_power_state`
(power.py lines 94-113).  Each iteration sleeps 3 seconds, fetches the
task, re-reads `taskId` and classifies `status`: `ovhError` or
`customerError` writes ERROR and breaks; a status outside
`init`/`todo`/`doing` writes the requested state and breaks; otherwise
the loop continues with the freshly read task id. -/
def pollLoop (requested : PowerState) (server : String) (task_id : Int) :
    List TaskResp → RunResult
  | [] => ⟨[], [], Outcome.still_polling⟩
  | none :: _ =>
      ⟨[Action.sleep 3, Action.get_task server task_id], [],
        Outcome.raised Exc.http_error⟩
  | some (tid, status) :: rest =>
      let acts := [Action.sleep 3, Action.get_task server task_id]
      if status = "ovhError" ∨ status = "customerError" then
        ⟨acts, [PowerState.ERROR], Outcome.finished⟩
      else if ¬ (status = "init" ∨ status = "todo" ∨ status = "doing") then
        ⟨acts, [requested], Outcome.finished⟩
      else
        let r := pollLoop requested server tid rest
        ⟨acts ++ r.trace, r.writes, r.outcome⟩

/-- The supported power states checked at the top of `set_power_state`
(the `base.PowerInterface` contract for this driver: on, off, reboot). -/
def supported_power_states : List PowerState :=
  [PowerState.POWER_OFF, PowerState.POWER_ON, PowerState.REBOOT]

/-- `OvhApiPower.set_power_state` (power.py lines 56-113).  Oracle
arguments: `set_boot_ok` / `reboot_ok` are the `raise_for_status`
outcomes of the two mutating calls, `task_id` the `taskId` decoded from
the reboot response, `polls` the successive poll responses.  On the
power-off branch the boot target is set to the configured power-off
script; on power-on / reboot it is set to the configured boot script;
then the server is rebooted, `task.node.power_state` is set to REBOOT
and the poll loop runs.  Exceptions in the mutate/reboot phase are
logged and re-raised. -/
def set_power_state (cfg : Conf) (server : String) (requested : PowerState)
    (set_boot_ok reboot_ok : Bool) (task_id : Int)
    (polls : List TaskResp) : RunResult :=
  if requested ∉ supported_power_states then
    ⟨[], [], Outcome.raised Exc.invalid_parameter_value⟩
  else
    let phase : List Action × Option Exc :=
      if requested = PowerState.POWER_OFF then
        if ¬ set_boot_ok then
          ([Action.set_boot_script server cfg.poweroff_script],
            some Exc.http_error)
        else if ¬ reboot_ok then
          ([Action.set_boot_script server cfg.poweroff_script,
            Action.reboot_server server], some Exc.http_error)
        else
          ([Action.set_boot_script server cfg.poweroff_script,
            Action.reboot_server server], none)
      else if requested = PowerState.POWER_ON ∨ requested = PowerState.REBOOT
      then
        if ¬ set_boot_ok then
          ([Action.set_boot_script server cfg.boot_script],
            some Exc.http_error)
        else if ¬ reboot_ok then
          ([Action.set_boot_script server cfg.boot_script,
            Action.reboot_server server], some Exc.http_error)
        else
          ([Action.set_boot_script server cfg.boot_script,
            Action.reboot_server server], none)
      else
        ([], some Exc.name_error)
    match phase with
    | (acts, some e) => ⟨acts, [], Outcome.raised e⟩
    | (acts, none) =>
        let r := pollLoop requested server task_id polls
        ⟨acts ++ r.trace, PowerState.REBOOT :: r.writes, r.outcome⟩

/-- `OvhApiPower.reboot` (power.py lines 117-118): delegates to
`set_power_state` with REBOOT, ignoring `timeout`. -/
def reboot_iface (cfg : Conf) (server : String)
    (set_boot_ok reboot_ok : Bool) (task_id : Int)
    (polls : List TaskResp) (timeout : Option Int) : RunResult :=
  set_power_state cfg server PowerState.REBOOT set_boot_ok reboot_ok
    task_id polls

/-- `OvhApiPower.get_power_state` (power.py lines 45-52): its body is
`return [states.POWER_OFF, states.POWER_ON, states.REBOOT]` — a list of
three states, for any task. -/
def get_power_state (_task : Unit) : List PowerState :=
  [PowerState.POWER_OFF, PowerState.POWER_ON, PowerState.REBOOT]

/-- Is this action a boot-target mutation (`set_boot_script`)? -/
def isSetBoot : Action → Bool
  | Action.set_boot_script _ _ => true
  | _ => false

/-- Is this action the reboot trigger? -/
def isRebootCall : Action → Bool
  | Action.reboot_server _ => true
  | _ => false

/-- Is this action a read of the server detail (the only call that could
capture the server's current boot target)? -/
def isCapture : Action → Bool
  | Action.get_server _ => true
  | _ => false

/-- Is this a state-mutating remote call? -/
def isMutating (a : Action) : Bool := isSetBoot a || isRebootCall a

/-- Boot-target mutations occurring at or after the reboot trigger: a
restoration of a previously captured boot target would have to be one of
these. -/
def restoreActions (tr : List Action) : List Action :=
  (tr.dropWhile (fun a => !isRebootCall a)).filter isSetBoot

/-! ### `OvhApiPower.validate` (power.py lines 128-156) -/

/-- Required `driver_info` keys (`REQUIRED_PROPERTIES` in power.py). -/
def required_properties : List String := ["server_name"]

/-- Python truthiness of `info.get(k)`: a key is missing when absent or
bound to the empty string. -/
def infoGetTruthy (info : List (String × String)) (k : String) : Bool :=
  match info.lookup k with
  | none => false
  | some v => v ≠ ""

/-- `OvhApiPower.validate`: first checks every required `driver_info`
field is present (raising `MissingParameterValue` with no remote call),
then calls `list_servers` and raises `InvalidParameterValue` when the
node's `server_name` is not in the returned list.  `driver_info = none`
models a node whose `driver_info` is `None` (`or {}` in the code).
Returns the action trace and the result. -/
def validate (driver_info : Option (List (String × String)))
    (server_list : List String) : List Action × Except Exc Unit :=
  let info := driver_info.getD []
  let missing_info := required_properties.filter
    (fun k => !infoGetTruthy info k)
  if missing_info ≠ [] then
    ([], Except.error Exc.missing_parameter_value)
  else
    let server := (info.lookup "server_name").getD ""
    if server ∉ server_list then
      ([Action.list_servers], Except.error Exc.invalid_parameter_value)
    else
      ([Action.list_servers], Except.ok ())

/-! ### `BaseClient.get_ipxe_script_id` (client.py lines 169-222) -/

/-- `result.get("kernel", "")` on a decoded boot-target detail record. -/
def kernel_of (rec : List (String × String)) : String :=
  (rec.lookup "kernel").getD ""

/-- `BaseClient.get_ipxe_script_id`, given the listed boot ids (the
decoded `GET .../boot?bootType=ipxeCustomerScript` body) and an oracle
`details` mapping a boot id to its decoded detail record (`none` models
an HTTP error on that fetch, which the code logs and skips).  Scans the
ids in order and returns the first whose `kernel` field equals
`script_name`; `none` models the final `raise Exception` when the list
is exhausted without a match. -/
def get_ipxe_script_id (details : Int → Option (List (String × String)))
    (script_name : String) : List Int → Option Int
  | [] => none
  | id :: rest =>
      match details id with
      | none => get_ipxe_script_id details script_name rest
      | some rec =>
          if kernel_of rec = script_name then some id
          else get_ipxe_script_id details script_name rest

/-- Scenario B detail oracle: id 11 carries script `other.ipxe`, id 22
carries script `boot.ipxe`. -/
def scenario_details : Int → Option (List (String × String)) :=
  fun id =>
    if id = 11 then some [("kernel", "other.ipxe")]
    else if id = 22 then some [("kernel", "boot.ipxe")]
    else none

/-! ### `Api.time_delta` and the request timestamp (ovh_base.py) -/

/-- The transport's cached `_time_delta` field (`None` before first
use). -/
structure TimeState where
  cached : Option Int
deriving DecidableEq, Repr

/-- `Api.time_delta` (ovh_base.py lines 67-79).  `remote_text` is the
integer body of `GET <endpoint>/auth/time`; `local_now` is
`int(time.time())` at the moment of the call.  Returns the delta, the
updated cache and whether a remote fetch was performed. -/
def time_delta (remote_text local_now : Int) :
    TimeState → Int × TimeState × Bool
  | ⟨none⟩ =>
      (remote_text - local_now, ⟨some (remote_text - local_now)⟩, true)
  | ⟨some d⟩ => (d, ⟨some d⟩, false)

/-- The `now` timestamp string built by `Api._call` (ovh_base.py line
93): `str(int(time.time()) + self.time_delta())`. -/
def call_timestamp (remote_text local_now : Int) (s : TimeState) :
    String × TimeState × Bool :=
  let r := time_delta remote_text local_now s
  (toString (local_now + r.1), r.2.1, r.2.2)

/-! ### SHA-1 (`hashlib.sha1` as used by `Api._call`)

Bytes are `Nat` values below 256, 32-bit words are `Nat` values reduced
modulo `2^32`. -/

/-- Reduce modulo `2^32`. -/
def w32 (x : Nat) : Nat := x % 4294967296

/-- Rotate a 32-bit word left by `k` bits (for `x < 2^32`). -/
def rotl (k x : Nat) : Nat := w32 (x <<< k) ||| (x >>> (32 - k))

/-- Big-endian bytes of a 64-bit length field. -/
def beBytes8 (n : Nat) : List Nat :=
  [(n >>> 56) &&& 255, (n >>> 48) &&& 255, (n >>> 40) &&& 255,
   (n >>> 32) &&& 255, (n >>> 24) &&& 255, (n >>> 16) &&& 255,
   (n >>> 8) &&& 255, n &&& 255]

/-- SHA-1 padding: append `0x80`, zeros to 56 mod 64, then the bit
length as 8 big-endian bytes. -/
def sha1pad (msg : List Nat) : List Nat :=
  msg ++ 128 :: List.replicate ((119 - msg.length % 64) % 64) 0
      ++ beBytes8 (msg.length * 8)

/-- Split a byte list into successive 64-byte blocks (structural
recursion on a fuel bounded by the list length, so that the definition
reduces inside the kernel). -/
def chunksGo : Nat → List Nat → List (List Nat)
  | 0, _ => []
  | _, [] => []
  | fuel + 1, x :: xs => ((x :: xs).take 64) :: chunksGo fuel ((x :: xs).drop 64)

/-- Split a byte list into successive 64-byte blocks. -/
def chunks64 (l : List Nat) : List (List Nat) := chunksGo l.length l

/-- Assemble big-endian 32-bit words from bytes. -/
def words32 : List Nat → List Nat
  | b0 :: b1 :: b2 :: b3 :: rest =>
      (b0 * 16777216 + b1 * 65536 + b2 * 256 + b3) :: words32 rest
  | _ => []

/-- One message-schedule extension step, on the reversed schedule. -/
def extendStep (r : List Nat) : List Nat :=
  rotl 1 ((r.getD 2 0) ^^^ (r.getD 7 0) ^^^ (r.getD 13 0) ^^^ (r.getD 15 0))
    :: r

/-- Iterate the extension step. -/
def extendN : Nat → List Nat → List Nat
  | 0, r => r
  | n + 1, r => extendN n (extendStep r)

/-- The 80-word SHA-1 message schedule of a 16-word block. -/
def schedule (w16 : List Nat) : List Nat := (extendN 64 w16.reverse).reverse

/-- The SHA-1 round function for round `t`. -/
def sha1F (t b c d : Nat) : Nat :=
  if t < 20 then (b &&& c) ||| ((b ^^^ 4294967295) &&& d)
  else if t < 40 then b ^^^ c ^^^ d
  else if t < 60 then (b &&& c) ||| (b &&& d) ||| (c &&& d)
  else b ^^^ c ^^^ d

/-- The SHA-1 round constant for round `t`. -/
def sha1K (t : Nat) : Nat :=
  if t < 20 then 1518500249
  else if t < 40 then 1859775393
  else if t < 60 then 2400959708
  else 3395469782

/-- The 80 SHA-1 rounds over the schedule words. -/
def sha1Rounds : Nat → List Nat → Nat × Nat × Nat × Nat × Nat →
    Nat × Nat × Nat × Nat × Nat
  | _, [], st => st
  | t, w :: ws, (a, b, c, d, e) =>
      let temp := w32 (rotl 5 a + sha1F t b c d + e + sha1K t + w)
      sha1Rounds (t + 1) ws (temp, a, rotl 30 b, c, d)

/-- Process one 64-byte block into the running hash state. -/
def sha1Block (h : Nat × Nat × Nat × Nat × Nat) (block : List Nat) :
    Nat × Nat × Nat × Nat × Nat :=
  match h, sha1Rounds 0 (schedule (words32 block)) h with
  | (h0, h1, h2, h3, h4), (a, b, c, d, e) =>
      (w32 (h0 + a), w32 (h1 + b), w32 (h2 + c), w32 (h3 + d),
       w32 (h4 + e))

/-- SHA-1 of a byte list, as the five 32-bit state words. -/
def sha1bytes (msg : List Nat) : Nat × Nat × Nat × Nat × Nat :=
  (chunks64 (sha1pad msg)).foldl sha1Block
    (1732584193, 4023233417, 2562383102, 271733878, 3285377520)

/-- UTF-8 encoding of one code point. -/
def utf8Char (c : Nat) : List Nat :=
  if c < 128 then [c]
  else if c < 2048 then [192 + c / 64, 128 + c % 64]
  else if c < 65536 then
    [224 + c / 4096, 128 + (c / 64) % 64, 128 + c % 64]
  else
    [240 + c / 262144, 128 + (c / 4096) % 64, 128 + (c / 64) % 64,
     128 + c % 64]

/-- UTF-8 encoding of a character list (`str.encode("utf-8")`). -/
def utf8Encode : List Char → List Nat
  | [] => []
  | c :: cs => utf8Char c.toNat ++ utf8Encode cs

/-- Lower-case hex digit. -/
def hexChar (n : Nat) : Char := Char.ofNat (if n < 10 then 48 + n else 87 + n)

/-- Eight lower-case hex digits of a 32-bit word. -/
def hex32 (x : Nat) : String :=
  String.mk ((List.range 8).map (fun i => hexChar ((x >>> (4 * (7 - i))) &&& 15)))

/-- `hashlib.sha1(s.encode("utf-8")).hexdigest()`. -/
def sha1hex (s : String) : String :=
  match sha1bytes (utf8Encode s.toList) with
  | (h0, h1, h2, h3, h4) =>
      hex32 h0 ++ hex32 h1 ++ hex32 h2 ++ hex32 h3 ++ hex32 h4

/-! ### Request signing and headers (`Api._call`, ovh_base.py 81-129) -/

/-- The string the signature is computed over:
`"+".join([secret, consumer_key, method.upper(), target_url, body, now])`. -/
def signing_material (secret ck methodUp url body now : String) : String :=
  String.intercalate "+" [secret, ck, methodUp, url, body, now]

/-- The `X-Ovh-Signature` header value:
`"$1$" + sha1(material).hexdigest()`. -/
def signature_value (secret ck methodUp url body now : String) : String :=
  "$1$" ++ sha1hex (signing_material secret ck methodUp url body now)

/-- `json.dumps` on the flat JSON objects this client sends (the only
body shape used is `{"bootId": n}`; `dumps` renders them with `", "` and
`": "` separators). -/
def jdumps (fields : List (String × Int)) : String :=
  "\x7b" ++ String.intercalate ", "
      (fields.map (fun kv => "\"" ++ kv.1 ++ "\": " ++ toString kv.2))
    ++ "\x7d"

/-- `str.upper()` on ASCII method names. -/
def pyUpper (s : String) : String := String.map Char.toUpper s

/-- The transport's per-instance credential fields (`Api.__init__`). -/
structure ApiConf where
  endpoint_url : String
  application_key : String
  application_secret : String
  consumer_key : String
  debug : Bool
deriving DecidableEq, Repr

/-- The headers dict built by `Api._call` for one request, given the
timestamp string `now`: the three base headers always, plus
`X-Ovh-Consumer` and `X-Ovh-Signature` exactly when the consumer key is
non-empty. -/
def call_headers (api : ApiConf) (method path : String)
    (content : Option (List (String × Int))) (now : String) :
    List (String × String) :=
  let target_url := api.endpoint_url ++ path
  let body := match content with
    | none => ""
    | some c => jdumps c
  let base := [("Content-type", "application/json"),
               ("X-Ovh-Application", api.application_key),
               ("X-Ovh-Timestamp", now)]
  if api.consumer_key = "" then base
  else base ++
    [("X-Ovh-Consumer", api.consumer_key),
     ("X-Ovh-Signature",
       signature_value api.application_secret api.consumer_key
         (pyUpper method) target_url body now)]

/-! ### Debug-log redaction (`Api._log_request`, ovh_base.py 131-156) -/

/-- Does `needle` start `hay`? -/
def listStartsWith : List Char → List Char → Bool
  | _, [] => true
  | [], _ :: _ => false
  | h :: hs, n :: ns => h == n && listStartsWith hs ns

/-- Does `needle` occur inside `hay`? -/
def listFindSub : List Char → List Char → Bool
  | [], needle => needle.isEmpty
  | h :: hs, needle => listStartsWith (h :: hs) needle || listFindSub hs needle

/-- `OBFUSCATE_REGEX.search(k)`: one of the four credential alternatives
occurs in the header name, case-insensitively (ovh_base.py 25-28). -/
def obfuscate_match (k : String) : Bool :=
  let lk := k.toList.map Char.toLower
  listFindSub lk "x-ovh-application".toList
    || listFindSub lk "password".toList
    || listFindSub lk "signature".toList
    || listFindSub lk "x-ovh-consumer".toList

/-- One `-H 'k: v'` fragment of the logged command, with the value of a
credential-matching header replaced by the redaction marker. -/
def header_part (kv : String × String) : String :=
  let v := if obfuscate_match kv.1 then "OBFUSCATED" else kv.2
  "-H \x27" ++ kv.1 ++ ": " ++ v ++ "\x27"

/-- `Api._log_request`: the list of emitted log lines.  Nothing is
emitted unless the debug flag is set; otherwise one request line (the
reconstructed curl command) and, when the body is non-empty, one body
line. -/
def log_request (debug : Bool) (method target_url : String)
    (headers : List (String × String)) (data : String) : List String :=
  if debug = false then []
  else
    let parts := ["curl -g -i", "-X \x27" ++ method ++ "\x27",
                  "\x27" ++ target_url ++ "\x27"]
      ++ headers.map header_part
    ("OVH API REQ: " ++ String.intercalate " " parts)
      :: (if data ≠ "" then ["OVH API REQ BODY: " ++ data] else [])

/-! ## Theorems -/

set_option maxRecDepth 10000

/-- Helper: the poll loop performs no boot-target mutation and no
server-detail read, on any oracle. -/
theorem pollLoop_no_boot_actions (req : PowerState) (srv : String)
    (tid : Int) (polls : List TaskResp) :
    (pollLoop req srv tid polls).trace.filter isSetBoot = []
    ∧ (pollLoop req srv tid polls).trace.filter isCapture = [] := by
  induction polls generalizing tid with
  | nil => simp [pollLoop]
  | cons p rest ih =>
      cases p with
      | none => simp [pollLoop, isSetBoot, isCapture]
      | some pr =>
          obtain ⟨tid2, status⟩ := pr
          by_cases h1 : status = "ovhError" ∨ status = "customerError"
          · simp [pollLoop, h1, isSetBoot, isCapture]
          · by_cases h2 : status = "init" ∨ status = "todo" ∨ status = "doing"
            · have hrec := ih tid2
              simp [pollLoop, h1, h2, isSetBoot, isCapture, hrec.1, hrec.2]
            · simp [pollLoop, h1, h2, isSetBoot, isCapture]

/-- Helper: the poll loop's action trace and outcome do not depend on
the requested power state (only its final write does). -/
theorem pollLoop_requested_indep (r1 r2 : PowerState) (srv : String)
    (tid : Int) (polls : List TaskResp) :
    (pollLoop r1 srv tid polls).trace = (pollLoop r2 srv tid polls).trace
    ∧ (pollLoop r1 srv tid polls).outcome
      = (pollLoop r2 srv tid polls).outcome := by
  induction polls generalizing tid with
  | nil => simp [pollLoop]
  | cons p rest ih =>
      cases p with
      | none => simp [pollLoop]
      | some pr =>
          obtain ⟨tid2, status⟩ := pr
          by_cases h1 : status = "ovhError" ∨ status = "customerError"
          · simp [pollLoop, h1]
          · by_cases h2 : status = "init" ∨ status = "todo" ∨ status = "doing"
            · have hrec := ih tid2
              simp [pollLoop, h1, h2, hrec.1, hrec.2]
            · simp [pollLoop, h1, h2]

/-- C1 (counterexample): on a concrete power-off request whose poll loop
ends in the success-terminal class, `set_power_state` performs no
capture of the current boot target (no server-detail read) and zero
boot-target mutations at or after the reboot trigger — not the single
mandatory restoration the claim asserts for every exit path. -/
theorem c1_poweroff_restoration_counterexample :
    (set_power_state ⟨"poweroff.ipxe", "boot.ipxe"⟩ "ns1" PowerState.POWER_OFF
        true true 7 [some (7, "done")]).outcome = Outcome.finished
    ∧ (set_power_state ⟨"poweroff.ipxe", "boot.ipxe"⟩ "ns1" PowerState.POWER_OFF
        true true 7 [some (7, "done")]).writes
      = [PowerState.REBOOT, PowerState.POWER_OFF]
    ∧ (set_power_state ⟨"poweroff.ipxe", "boot.ipxe"⟩ "ns1" PowerState.POWER_OFF
        true true 7 [some (7, "done")]).trace.filter isCapture = []
    ∧ (restoreActions (set_power_state ⟨"poweroff.ipxe", "boot.ipxe"⟩ "ns1"
        PowerState.POWER_OFF true true 7 [some (7, "done")]).trace).length
      = 0 := by
  decide

/-- C1 (amended): a power-off transition never captures the server's
current boot target and never restores one: on every exit path (success
terminal, error terminal, HTTP exception in any phase, exhausted oracle)
the run contains no server-detail read, no boot-target mutation at or
after the reboot trigger, and its only boot-target mutation is the
initial switch to the configured power-off script. -/
theorem c1_poweroff_no_capture_no_restore (cfg : Conf) (server : String)
    (set_boot_ok reboot_ok : Bool) (task_id : Int) (polls : List TaskResp) :
    (set_power_state cfg server PowerState.POWER_OFF set_boot_ok reboot_ok
        task_id polls).trace.filter isCapture = []
    ∧ restoreActions (set_power_state cfg server PowerState.POWER_OFF
        set_boot_ok reboot_ok task_id polls).trace = []
    ∧ (set_power_state cfg server PowerState.POWER_OFF set_boot_ok reboot_ok
        task_id polls).trace.filter isSetBoot
      = [Action.set_boot_script server cfg.poweroff_script] := by
  have hp := pollLoop_no_boot_actions PowerState.POWER_OFF server task_id polls
  have hmem : PowerState.POWER_OFF ∈ supported_power_states := by decide
  cases set_boot_ok with
  | false =>
      simp [set_power_state, hmem, restoreActions, isCapture, isSetBoot,
        isRebootCall, List.dropWhile]
  | true =>
      cases reboot_ok with
      | false =>
          simp [set_power_state, hmem, restoreActions, isCapture, isSetBoot,
            isRebootCall, List.dropWhile]
      | true =>
          simp [set_power_state, hmem, restoreActions, isCapture, isSetBoot,
            isRebootCall, List.dropWhile, hp.1, hp.2]

/-- C2: each poll iteration sleeps 3 seconds then fetches the task; a
status in (ovhError, customerError) writes ERROR to the node's power
state and stops; a status outside (init, todo, doing) that is not an
error status writes the requested state and stops; a status in (init,
todo, doing) continues polling with the freshly read task id. -/
theorem c2_poll_iteration_classification (requested : PowerState)
    (server : String) (task_id tid : Int) (status : String)
    (rest : List TaskResp) :
    (pollLoop requested server task_id (some (tid, status) :: rest)).trace.take 2
      = [Action.sleep 3, Action.get_task server task_id]
    ∧ ((status = "ovhError" ∨ status = "customerError") →
        pollLoop requested server task_id (some (tid, status) :: rest)
          = ⟨[Action.sleep 3, Action.get_task server task_id],
             [PowerState.ERROR], Outcome.finished⟩)
    ∧ (¬ (status = "ovhError" ∨ status = "customerError") →
       ¬ (status = "init" ∨ status = "todo" ∨ status = "doing") →
        pollLoop requested server task_id (some (tid, status) :: rest)
          = ⟨[Action.sleep 3, Action.get_task server task_id],
             [requested], Outcome.finished⟩)
    ∧ ((status = "init" ∨ status = "todo" ∨ status = "doing") →
        pollLoop requested server task_id (some (tid, status) :: rest)
          = ⟨[Action.sleep 3, Action.get_task server task_id]
                ++ (pollLoop requested server tid rest).trace,
             (pollLoop requested server tid rest).writes,
             (pollLoop requested server tid rest).outcome⟩) := by
  refine ⟨?_, ?_, ?_, ?_⟩
  · by_cases h1 : status = "ovhError" ∨ status = "customerError"
    · simp [pollLoop, h1]
    · by_cases h2 : status = "init" ∨ status = "todo" ∨ status = "doing"
      · simp [pollLoop, h1, h2]
      · simp [pollLoop, h1, h2]
  · intro h1
    simp [pollLoop, h1]
  · intro h1 h2
    simp [pollLoop, h1, h2]
  · intro h2
    have h1 : ¬ (status = "ovhError" ∨ status = "customerError") := by
      rcases h2 with h | h | h <;> subst h <;> decide
    simp [pollLoop, h1, h2]

/-- Witness for C2: concrete iterations of each class — an `ovhError`
response, a `done` response, a `doing` response. -/
theorem c2_poll_iteration_classification_witness :
    pollLoop PowerState.POWER_OFF "ns1" 7 [some (8, "ovhError")]
      = ⟨[Action.sleep 3, Action.get_task "ns1" 7], [PowerState.ERROR],
         Outcome.finished⟩
    ∧ pollLoop PowerState.POWER_OFF "ns1" 7 [some (8, "done")]
      = ⟨[Action.sleep 3, Action.get_task "ns1" 7], [PowerState.POWER_OFF],
         Outcome.finished⟩
    ∧ pollLoop PowerState.POWER_OFF "ns1" 7
        (some (8, "doing") :: [some (8, "done")])
      = ⟨[Action.sleep 3, Action.get_task "ns1" 7]
            ++ (pollLoop PowerState.POWER_OFF "ns1" 8 [some (8, "done")]).trace,
         (pollLoop PowerState.POWER_OFF "ns1" 8 [some (8, "done")]).writes,
         (pollLoop PowerState.POWER_OFF "ns1" 8 [some (8, "done")]).outcome⟩ := by
  refine ⟨?_, ?_, ?_⟩
  · exact (c2_poll_iteration_classification PowerState.POWER_OFF "ns1" 7 8
      "ovhError" []).2.1 (by decide)
  · exact (c2_poll_iteration_classification PowerState.POWER_OFF "ns1" 7 8
      "done" []).2.2.1 (by decide) (by decide)
  · exact (c2_poll_iteration_classification PowerState.POWER_OFF "ns1" 7 8
      "doing" [some (8, "done")]).2.2.2 (by decide)

/-- Helper: the joined signing string is the plus-separated
concatenation of its six components. -/
theorem signing_material_eq (a b c d e f : String) :
    signing_material a b c d e f
      = a ++ "+" ++ b ++ "+" ++ c ++ "+" ++ d ++ "+" ++ e ++ "+" ++ f := by
  simp only [signing_material, String.intercalate, String.intercalate.go]

/-- Helper: appending to a fixed string is injective. -/
theorem str_append_right_inj (p t1 t2 : String) (h : p ++ t1 = p ++ t2) :
    t1 = t2 := by
  have hd := congrArg String.data h
  simp [String.data_append] at hd
  cases t1
  cases t2
  simp_all

/-- C3: when the consumer key is non-empty the request carries an
`X-Ovh-Consumer` header and an `X-Ovh-Signature` header whose value is
`$1$` followed by the hex SHA-1 of
`secret + "+" + consumer_key + "+" + upper(method) + "+" + url + "+" +
body + "+" + timestamp`; when the consumer key is empty neither header
is attached. -/
theorem c3_signature_headers (api : ApiConf) (method path : String)
    (content : Option (List (String × Int))) (now : String) :
    (api.consumer_key ≠ "" →
      (call_headers api method path content now).lookup "X-Ovh-Signature"
        = some ("$1$" ++ sha1hex (api.application_secret ++ "+"
            ++ api.consumer_key ++ "+" ++ pyUpper method ++ "+"
            ++ (api.endpoint_url ++ path) ++ "+"
            ++ (match content with | none => "" | some c => jdumps c) ++ "+"
            ++ now))
      ∧ (call_headers api method path content now).lookup "X-Ovh-Consumer"
          = some api.consumer_key)
    ∧ (api.consumer_key = "" →
      (call_headers api method path content now).lookup "X-Ovh-Signature"
        = none
      ∧ (call_headers api method path content now).lookup "X-Ovh-Consumer"
        = none) := by
  constructor
  · intro h
    simp [call_headers, h, List.lookup, signature_value, signing_material_eq]
  · intro h
    simp [call_headers, h, List.lookup]

/-- Witness for C3: a concrete authenticated request carries both
headers with the specified signature value; the same request without a
consumer key carries neither. -/
theorem c3_signature_headers_witness :
    ((call_headers ⟨"https://eu.api.ovh.com/1.0", "ak", "as", "ck", false⟩
        "get" "/dedicated/server" none "1700000150").lookup "X-Ovh-Signature"
      = some ("$1$" ++ sha1hex ("as" ++ "+" ++ "ck" ++ "+" ++ pyUpper "get"
          ++ "+" ++ ("https://eu.api.ovh.com/1.0" ++ "/dedicated/server")
          ++ "+" ++ "" ++ "+" ++ "1700000150"))
      ∧ (call_headers ⟨"https://eu.api.ovh.com/1.0", "ak", "as", "ck", false⟩
          "get" "/dedicated/server" none "1700000150").lookup "X-Ovh-Consumer"
        = some "ck")
    ∧ ((call_headers ⟨"https://eu.api.ovh.com/1.0", "ak", "as", "", false⟩
        "get" "/dedicated/server" none "1700000150").lookup "X-Ovh-Signature"
      = none
      ∧ (call_headers ⟨"https://eu.api.ovh.com/1.0", "ak", "as", "", false⟩
          "get" "/dedicated/server" none "1700000150").lookup "X-Ovh-Consumer"
        = none) := by
  exact ⟨(c3_signature_headers ⟨"https://eu.api.ovh.com/1.0", "ak", "as",
      "ck", false⟩ "get" "/dedicated/server" none "1700000150").1 (by decide),
    (c3_signature_headers ⟨"https://eu.api.ovh.com/1.0", "ak", "as", "",
      false⟩ "get" "/dedicated/server" none "1700000150").2 rfl⟩

/-- C4: the clock delta is fetched remotely at most once — a fresh
transport computes `remote - local` and caches it, and every later call
returns the cached value with no remote fetch; a request is timestamped
`local + delta`.  Scenario A: remote `1700000100` read at local
`1700000000` gives delta `100`, and a call at local `1700000050` is
timestamped `1700000150`. -/
theorem c4_time_delta_cached_once (r l r2 l2 d : Int) :
    time_delta r l ⟨none⟩ = (r - l, ⟨some (r - l)⟩, true)
    ∧ time_delta r2 l2 ⟨some d⟩ = (d, ⟨some d⟩, false)
    ∧ call_timestamp r2 l2 ⟨some d⟩ = (toString (l2 + d), ⟨some d⟩, false)
    ∧ time_delta 1700000100 1700000000 ⟨none⟩ = (100, ⟨some 100⟩, true)
    ∧ call_timestamp r2 1700000050 ⟨some 100⟩
      = ("1700000150", ⟨some 100⟩, false) := by
  refine ⟨rfl, rfl, rfl, by norm_num [time_delta], ?_⟩
  simp [call_timestamp, time_delta]
  rfl

/-- C5: boot-script resolution scans the listed boot ids in order,
skips ids whose detail fetch fails, and returns the first id whose
`kernel` field equals the wanted script name (exactly `List.find?`),
returning nothing when the list is exhausted; Scenario B: against
ids 11 (script `other.ipxe`) and 22 (script `boot.ipxe`), wanting
`boot.ipxe` returns 22. -/
theorem c5_ipxe_script_resolution :
    (∀ (details : Int → Option (List (String × String))) (name : String)
        (l : List Int),
      get_ipxe_script_id details name l
        = l.find? (fun id =>
            match details id with
            | some rec => kernel_of rec == name
            | none => false))
    ∧ (∀ (details : Int → Option (List (String × String))) (name : String)
        (id : Int) (rest : List Int), details id = none →
      get_ipxe_script_id details name (id :: rest)
        = get_ipxe_script_id details name rest)
    ∧ get_ipxe_script_id scenario_details "boot.ipxe" [11, 22] = some 22 := by
  refine ⟨?_, ?_, by decide⟩
  · intro details name l
    induction l with
    | nil => simp [get_ipxe_script_id]
    | cons id rest ih =>
        cases hd : details id with
        | none => simp [get_ipxe_script_id, List.find?, hd, ih]
        | some rec =>
            by_cases hk : kernel_of rec = name
            · simp [get_ipxe_script_id, List.find?, hd, hk]
            · have hk2 : (kernel_of rec == name) = false := by simp [hk]
              simp [get_ipxe_script_id, List.find?, hd, hk, hk2, ih]
  · intro details name id rest hd
    simp [get_ipxe_script_id, hd]

/-- Witness for C5: a failing detail fetch (id 33) is skipped without
aborting the scan, and the Scenario B listing resolves to 22. -/
theorem c5_ipxe_script_resolution_witness :
    get_ipxe_script_id scenario_details "boot.ipxe" [33, 11, 22]
      = get_ipxe_script_id scenario_details "boot.ipxe" [11, 22]
    ∧ get_ipxe_script_id scenario_details "boot.ipxe" [11, 22] = some 22 := by
  exact ⟨c5_ipxe_script_resolution.2.1 scenario_details "boot.ipxe" 33 [11, 22]
      (by decide),
    c5_ipxe_script_resolution.2.2⟩

/-- C6: the debug request line renders every header whose name matches
the credential pattern with the fixed marker `OBFUSCATED`, and the
emitted output is unchanged when the values of matching headers change —
the original value of such a header never reaches the log sink. -/
theorem c6_log_redaction (debug : Bool) (method url data : String)
    (h1 h2 : List (String × String))
    (hrel : List.Forall₂ (fun a b : String × String =>
        a.1 = b.1 ∧ (obfuscate_match a.1 = false → a.2 = b.2)) h1 h2) :
    log_request debug method url h1 data = log_request debug method url h2 data
    ∧ (∀ k v, obfuscate_match k = true →
        header_part (k, v) = "-H \x27" ++ k ++ ": OBFUSCATED\x27") := by
  constructor
  · have hmap : h1.map header_part = h2.map header_part := by
      induction hrel with
      | nil => rfl
      | cons hab _ ih =>
          rename_i a b l1 l2 _
          have hone : header_part a = header_part b := by
            obtain ⟨hk, hv⟩ := hab
            cases hob : obfuscate_match a.1 with
            | true => simp [header_part, hk ▸ hob, hob, hk]
            | false => simp [header_part, hk ▸ hob, hob, hk, hv hob]
          simp [hone, ih]
    cases debug with
    | false => rfl
    | true => simp [log_request, hmap]
  · intro k v hob
    have hlit : (": " ++ ("OBFUSCATED" ++ "\x27") : String)
        = ": OBFUSCATED\x27" := by
      decide
    simp [header_part, hob, String.append_assoc, hlit]

/-- Witness for C6: two concrete requests differing only in the value of
the `X-Ovh-Signature` header emit identical log output, and the
signature header renders as the redaction marker. -/
theorem c6_log_redaction_witness :
    log_request true "GET" "https://eu.api.ovh.com/1.0/auth/time"
      [("X-Ovh-Signature", "$1$secretdigest"),
       ("Content-type", "application/json")] ""
    = log_request true "GET" "https://eu.api.ovh.com/1.0/auth/time"
      [("X-Ovh-Signature", "$1$otherdigest"),
       ("Content-type", "application/json")] ""
    ∧ header_part ("X-Ovh-Signature", "$1$secretdigest")
      = "-H \x27X-Ovh-Signature: OBFUSCATED\x27" := by
  have h := c6_log_redaction true "GET" "https://eu.api.ovh.com/1.0/auth/time"
    ""
    [("X-Ovh-Signature", "$1$secretdigest"),
     ("Content-type", "application/json")]
    [("X-Ovh-Signature", "$1$otherdigest"),
     ("Content-type", "application/json")]
    (List.Forall₂.cons ⟨rfl, fun hc => absurd hc (by decide)⟩
      (List.Forall₂.cons ⟨rfl, fun _ => rfl⟩ List.Forall₂.nil))
  refine ⟨h.1, ?_⟩
  have h2 := h.2 "X-Ovh-Signature" "$1$secretdigest" (by decide)
  rw [h2]
  decide

/-- C7: `validate` raises the missing-parameter error with no remote
call at all when a required `driver_info` field is absent; otherwise it
performs exactly the `list_servers` read and raises the
invalid-parameter error iff the server is not in the returned list; no
branch performs a mutating call.  Scenario E is the witness. -/
theorem c7_validate_fail_fast (driver_info : Option (List (String × String)))
    (server_list : List String) :
    (required_properties.filter
        (fun k => !infoGetTruthy (driver_info.getD []) k) ≠ [] →
      validate driver_info server_list
        = ([], Except.error Exc.missing_parameter_value))
    ∧ (required_properties.filter
        (fun k => !infoGetTruthy (driver_info.getD []) k) = [] →
      (validate driver_info server_list).1 = [Action.list_servers]
      ∧ (((driver_info.getD []).lookup "server_name").getD "" ∉ server_list →
          (validate driver_info server_list).2
            = Except.error Exc.invalid_parameter_value)
      ∧ (((driver_info.getD []).lookup "server_name").getD "" ∈ server_list →
          (validate driver_info server_list).2 = Except.ok ()))
    ∧ (validate driver_info server_list).1.filter isMutating = [] := by
  refine ⟨?_, ?_, ?_⟩
  · intro h
    simp [validate, h]
  · intro h
    by_cases hm : ((driver_info.getD []).lookup "server_name").getD ""
        ∈ server_list
    · simp [validate, h, hm]
    · simp [validate, h, hm]
  · by_cases h : required_properties.filter
        (fun k => !infoGetTruthy (driver_info.getD []) k) = []
    · by_cases hm : ((driver_info.getD []).lookup "server_name").getD ""
          ∈ server_list
      · simp [validate, h, hm, isMutating, isSetBoot, isRebootCall]
      · simp [validate, h, hm, isMutating, isSetBoot, isRebootCall]
    · simp [validate, h]

/-- Witness for C7 (Scenario E): validating `ns999` against a server
list not containing it performs only the `list_servers` read and fails
with the invalid-parameter error. -/
theorem c7_validate_fail_fast_witness :
    validate (some [("server_name", "ns999")]) ["ns001", "ns002"]
      = ([Action.list_servers], Except.error Exc.invalid_parameter_value) := by
  have h := c7_validate_fail_fast (some [("server_name", "ns999")])
    ["ns001", "ns002"]
  have h1 := (h.2.1 (by decide)).1
  have h2 := (h.2.1 (by decide)).2.1 (by decide)
  exact Prod.ext h1 h2

/-- C8: `get_power_state` does not return one single power state — its
body returns the three-element list `[POWER_OFF, POWER_ON, REBOOT]` for
every task, contradicting its own docstring (*one of POWER_OFF,
POWER_ON or ERROR*). -/
theorem c8_get_power_state_returns_state_list :
    get_power_state () = [PowerState.POWER_OFF, PowerState.POWER_ON,
      PowerState.REBOOT]
    ∧ (get_power_state ()).length = 3 := by
  decide

/-- C9: the timestamp is bound injectively into the signed material —
with a non-empty consumer key, identical method/URL/body but different
timestamps give different signing strings — and on a concrete
authenticated request two different timestamps produce different
`X-Ovh-Signature` values. -/
theorem c9_timestamp_bound_in_signature (secret ck m url body t1 t2 : String)
    (hck : ck ≠ "") (ht : t1 ≠ t2) :
    signing_material secret ck m url body t1
      ≠ signing_material secret ck m url body t2
    ∧ signature_value "secret" "ckey" "GET"
        "https://eu.api.ovh.com/1.0/dedicated/server/ns1/reboot" ""
        "1700000000"
      ≠ signature_value "secret" "ckey" "GET"
        "https://eu.api.ovh.com/1.0/dedicated/server/ns1/reboot" ""
        "1700000001" := by
  constructor
  · intro heq
    rw [signing_material_eq, signing_material_eq] at heq
    exact ht (str_append_right_inj _ _ _ heq)
  · decide

/-- Witness for C9: two concrete timestamps one second apart give
different signing strings and different signature header values. -/
theorem c9_timestamp_bound_in_signature_witness :
    signing_material "secret" "ckey" "GET"
        "https://eu.api.ovh.com/1.0/dedicated/server/ns1/reboot" ""
        "1700000000"
      ≠ signing_material "secret" "ckey" "GET"
        "https://eu.api.ovh.com/1.0/dedicated/server/ns1/reboot" ""
        "1700000001"
    ∧ signature_value "secret" "ckey" "GET"
        "https://eu.api.ovh.com/1.0/dedicated/server/ns1/reboot" ""
        "1700000000"
      ≠ signature_value "secret" "ckey" "GET"
        "https://eu.api.ovh.com/1.0/dedicated/server/ns1/reboot" ""
        "1700000001" := by
  exact c9_timestamp_bound_in_signature "secret" "ckey" "GET"
    "https://eu.api.ovh.com/1.0/dedicated/server/ns1/reboot" ""
    "1700000000" "1700000001" (by decide) (by decide)

/-- C10: `reboot` is extensionally `set_power_state` with REBOOT for
every timeout, and a power-on request performs the identical
set-boot-script-then-reboot action trace as a reboot request. -/
theorem c10_reboot_equals_set_power_state_reboot (cfg : Conf)
    (server : String) (set_boot_ok reboot_ok : Bool) (task_id : Int)
    (polls : List TaskResp) :
    (∀ timeout : Option Int,
      reboot_iface cfg server set_boot_ok reboot_ok task_id polls timeout
        = set_power_state cfg server PowerState.REBOOT set_boot_ok reboot_ok
            task_id polls)
    ∧ (set_power_state cfg server PowerState.POWER_ON set_boot_ok reboot_ok
          task_id polls).trace
      = (set_power_state cfg server PowerState.REBOOT set_boot_ok reboot_ok
          task_id polls).trace := by
  constructor
  · intro _
    rfl
  · have hp := pollLoop_requested_indep PowerState.POWER_ON PowerState.REBOOT
      server task_id polls
    have hm1 : PowerState.POWER_ON ∈ supported_power_states := by decide
    have hm2 : PowerState.REBOOT ∈ supported_power_states := by decide
    cases set_boot_ok with
    | false => simp [set_power_state, hm1, hm2]
    | true =>
        cases reboot_ok with
        | false => simp [set_power_state, hm1, hm2]
        | true => simp [set_power_state, hm1, hm2, hp.1]

end Ovh
